import Mathlib

/-!
Verification of the automated math-solver intake pipeline.

The definitions below are shallow embeddings of the Python sources:
  src/backend/services/math_solver.py      (classifier / expression extractor)
  src/backend/utils/validators.py          (content validator)
  src/backend/services/scheduler_service.py (orchestrator / run loop)

Machine text is modelled as `List Char`; the regular expressions used by the
sources are embedded with a small executable matcher implementing Python's
leftmost, greedy-with-backtracking semantics for exactly the regex constructs
the sources use (character classes, greedy star/plus over a class, literal
alternation, word boundaries, and one optional literal-plus-class suffix).
Floating point arithmetic in the relevance score is modelled exactly over ℚ.
-/

/-- Atoms of the regular expressions used by the sources.  A pattern is a
sequence of atoms.  `one p` matches one character of class `p`; `many0`/`many1`
are greedy `*`/`+` over a class; `bnd` is the word boundary assertion;
`strs` is an alternation of literal words (each word a list of per-character
predicates, so case-insensitive literals are expressible); `optLitPlus q r`
is the optional greedy suffix of one `q` character followed by one or more `r`
characters, as in the source pattern fragment with an optional caret-exponent
suffix. -/
inductive RAtom where
  | one : (Char → Bool) → RAtom
  | many0 : (Char → Bool) → RAtom
  | many1 : (Char → Bool) → RAtom
  | bnd : RAtom
  | strs : List (List (Char → Bool)) → RAtom
  | optLitPlus : (Char → Bool) → (Char → Bool) → RAtom

/-- Python word character (ASCII part of the regex class for word chars). -/
def pyWordChar (c : Char) : Bool := c.isAlphanum || c = '_'

/-- Python whitespace class (ASCII part). -/
def pySpace (c : Char) : Bool :=
  c = ' ' || c = '\t' || c = '\n' || c = '\x0d' || c = '\x0b' || c = '\x0c'

/-- Word-boundary test between an optional previous character and an optional
next character, as in Python regex semantics. -/
def pyBoundary (prev next : Option Char) : Bool :=
  xor (match prev with | none => false | some c => pyWordChar c)
      (match next with | none => false | some c => pyWordChar c)

/-- Length of the maximal prefix of `cs` whose characters satisfy `p`. -/
def runLen (p : Char → Bool) (cs : List Char) : Nat := (cs.takeWhile p).length

/-- Does the literal word `w` (a list of per-character predicates) match a
prefix of `cs`? -/
def litsMatch : List (Char → Bool) → List Char → Bool
  | [], _ => true
  | _ :: _, [] => false
  | p :: ps, c :: rest => p c && litsMatch ps rest

/-- Greedy repetition driver: try consuming `k` characters, then `k - 1`, …,
down to `lo`, calling the continuation `cont` on the remainder; the first
success wins (Python greedy backtracking).  `prev` is the character preceding
the repetition, threaded for word-boundary tests. -/
def tryRun (cont : Option Char → List Char → Option Nat) (prev : Option Char)
    (cs : List Char) (lo : Nat) : Nat → Option Nat
  | 0 => if lo = 0 then cont prev cs else none
  | Nat.succ k =>
      if Nat.succ k < lo then none
      else
        match cont ((cs.take (k + 1)).getLast?) (cs.drop (k + 1)) with
        | some r => some (k + 1 + r)
        | none => tryRun cont prev cs lo k

/-- Alternation driver: try each literal alternative left to right; on a
prefix match run the continuation, and on its failure fall through to the next
alternative (Python alternation with backtracking). -/
def tryAlts (cont : Option Char → List Char → Option Nat) (prev : Option Char)
    : List (List (Char → Bool)) → List Char → Option Nat
  | [], _ => none
  | w :: ws, cs =>
      if litsMatch w cs then
        match cont (if w.length = 0 then prev else (cs.take w.length).getLast?)
              (cs.drop w.length) with
        | some r => some (w.length + r)
        | none => tryAlts cont prev ws cs
      else tryAlts cont prev ws cs

/-- Match a pattern (list of atoms) at the start of the input, returning the
length of the preferred (greedy, leftmost-alternative) match, Python style.
`prev` is the character just before the match position, for boundaries. -/
def matchSeq : List RAtom → Option Char → List Char → Option Nat
  | [] => fun _ _ => some 0
  | RAtom.one p :: as => fun _ cs =>
      match cs with
      | [] => none
      | c :: rest => if p c then (matchSeq as (some c) rest).map (· + 1) else none
  | RAtom.bnd :: as => fun prev cs =>
      if pyBoundary prev cs.head? then matchSeq as prev cs else none
  | RAtom.many1 p :: as => fun prev cs =>
      tryRun (matchSeq as) prev cs 1 (runLen p cs)
  | RAtom.many0 p :: as => fun prev cs =>
      tryRun (matchSeq as) prev cs 0 (runLen p cs)
  | RAtom.strs alts :: as => fun prev cs => tryAlts (matchSeq as) prev alts cs
  | RAtom.optLitPlus q r :: as => fun prev cs =>
      match cs with
      | c :: rest =>
          if q c then
            match tryRun (matchSeq as) (some c) rest 1 (runLen r rest) with
            | some m => some (m + 1)
            | none => matchSeq as prev cs
          else matchSeq as prev cs
      | [] => matchSeq as prev cs

/-- Scan rest of the input for non-overlapping matches, Python `re.findall`
style: at each position try the pattern; on a non-empty match record it and
continue after it, otherwise advance one character.  The skip counter carries
the number of remaining characters inside the current match.  (No pattern in
this file matches the empty string.) -/
def findAllAux (pat : List RAtom) : Option Char → List Char → Nat → List (List Char)
  | _, [], _ => []
  | _, c :: rest, Nat.succ k => findAllAux pat (some c) rest k
  | prev, c :: rest, 0 =>
      match matchSeq pat prev (c :: rest) with
      | some (Nat.succ n) =>
          (c :: rest).take (n + 1) :: findAllAux pat (some c) rest n
      | _ => findAllAux pat (some c) rest 0

/-- All non-overlapping matches of `pat` in `cs` (Python `re.findall`). -/
def findAll (pat : List RAtom) (cs : List Char) : List (List Char) :=
  findAllAux pat none cs 0

/-- Delete every non-overlapping match of `pat` from the input (Python
`re.sub` with an empty replacement string). -/
def subAllAux (pat : List RAtom) : Option Char → List Char → Nat → List Char
  | _, [], _ => []
  | _, c :: rest, Nat.succ k => subAllAux pat (some c) rest k
  | prev, c :: rest, 0 =>
      match matchSeq pat prev (c :: rest) with
      | some (Nat.succ n) => subAllAux pat (some c) rest n
      | _ => c :: subAllAux pat (some c) rest 0

/-- Python `re.sub(pat, empty, cs)`. -/
def subAll (pat : List RAtom) (cs : List Char) : List Char :=
  subAllAux pat none cs 0

/-- Does `pat` match anywhere in the input (Python `re.search`)? -/
def searchAux (pat : List RAtom) : Option Char → List Char → Bool
  | prev, [] => (matchSeq pat prev []).isSome
  | prev, c :: rest =>
      (matchSeq pat prev (c :: rest)).isSome || searchAux pat (some c) rest

/-- Python `re.search` as a Boolean. -/
def searchB (pat : List RAtom) (cs : List Char) : Bool := searchAux pat none cs

/-- Count non-overlapping occurrences of `needle` in the remainder of the
input (Python `str.count`); the skip counter carries characters still inside
the previous occurrence. -/
def countSubAux (needle : List Char) : List Char → Nat → Nat
  | [], _ => 0
  | _ :: rest, Nat.succ k => countSubAux needle rest k
  | c :: rest, 0 =>
      if needle.isPrefixOf (c :: rest) then
        1 + countSubAux needle rest (needle.length - 1)
      else countSubAux needle rest 0

/-- Python `hay.count(needle)` for a non-empty needle. -/
def countSub (needle hay : List Char) : Nat := countSubAux needle hay 0

/-- Python `str.strip()` (ASCII whitespace). -/
def pyStrip (cs : List Char) : List Char :=
  ((cs.dropWhile pySpace).reverse.dropWhile pySpace).reverse

/-- Case-insensitive literal word, as matched under the ignore-case flag. -/
def ciWord (s : String) : List (Char → Bool) :=
  s.toList.map (fun a c => c.toLower = a)

/-!
Problem classifier — embeds `_identify_problem_type` and the
`problem_patterns` table of `MathematicalSolver`
(src/backend/services/math_solver.py, lines 49-61 and 189-212).
-/

/-- One character drawn from an explicit character set (regex class of
literal characters). -/
def oneOf (s : String) : Char → Bool := fun c => s.toList.contains c

/-- The equation cue pattern: one of the words solve, find or calculate,
then one or more whitespace characters, then any characters up to an equals
sign (the lazy any-character repetition of the source matches no newline;
for the existence test performed by search, greedy and lazy agree). -/
def equationCuePat : List RAtom :=
  [RAtom.strs [ciWord "solve", ciWord "find", ciWord "calculate"],
   RAtom.many1 pySpace, RAtom.many0 (fun c => !(c = '\n')), RAtom.one (fun c => c = '=')]

/-- Case-insensitive search for any of the given literal alternatives, as the
source's alternation-only patterns behave under search. -/
def containsAnyOf (tl : List Char) (ws : List String) : Bool :=
  ws.any (fun w => decide ((w.toList.map Char.toLower) <:+: tl))

/-- The equation pattern of `problem_patterns` applied by search. -/
def equationCue (tl : List Char) : Bool := searchB equationCuePat tl

/-- The derivative pattern of `problem_patterns` (alternation of literals). -/
def derivativeCue (tl : List Char) : Bool :=
  containsAnyOf tl ["derivative", "differentiate", "d/dx", "∂/∂"]

/-- The integral pattern of `problem_patterns`. -/
def integralCue (tl : List Char) : Bool := containsAnyOf tl ["integral", "integrate", "∫"]

/-- The limit pattern of `problem_patterns`. -/
def limitCue (tl : List Char) : Bool := containsAnyOf tl ["limit", "lim", "approaches"]

/-- The matrix pattern of `problem_patterns`. -/
def matrixCue (tl : List Char) : Bool :=
  containsAnyOf tl ["matrix", "determinant", "eigenvalue", "system"]

/-- The simplify pattern of `problem_patterns`. -/
def simplifyCue (tl : List Char) : Bool := containsAnyOf tl ["simplify", "reduce", "factor"]

/-- The graph pattern of `problem_patterns`. -/
def graphCue (tl : List Char) : Bool := containsAnyOf tl ["graph", "plot", "sketch"]

/-- The optimization pattern of `problem_patterns`. -/
def optimizationCue (tl : List Char) : Bool :=
  containsAnyOf tl ["maximum", "minimum", "optimize", "extrema"]

/-- The ordered pattern table `problem_patterns` (source lines 52-61); each
entry pairs the category label with its pattern applied to the lowercased
text. -/
def problemPatterns : List (String × (List Char → Bool)) :=
  [("equation", equationCue),
   ("derivative", derivativeCue),
   ("integral", integralCue),
   ("limit", limitCue),
   ("matrix", matrixCue),
   ("simplify", simplifyCue),
   ("graph", graphCue),
   ("optimization", optimizationCue)]

/-- The `common_symbols` list of the solver (source line 49). -/
def commonSymbols : List Char := ['x', 'y', 'z', 't', 'a', 'b', 'c', 'n', 'k', 'm']

/-- Embeds `_identify_problem_type` (source lines 189-212): lowercase the
text, return the first category of the ordered table whose pattern matches;
otherwise fall back on content: an equals sign together with a known variable
letter gives equation, an arithmetic operator gives simplify, else general.
The fallback inspects the original (non-lowercased) text as the source does. -/
def identify_problem_type (text : List Char) : String :=
  let tl := text.map Char.toLower
  match problemPatterns.find? (fun pc => pc.2 tl) with
  | some pc => pc.1
  | none =>
      if text.contains '=' && commonSymbols.any (fun v => text.contains v) then "equation"
      else if (['+', '-', '*', '/', '^'] : List Char).any (fun op => text.contains op) then "simplify"
      else "general"

/-- Modelled from the spec following its words, for comparison with the
source's table-driven classifier: tests the category cues one by one in the
spec's fixed priority order (equation, derivative, integral, limit, matrix,
simplify, graph, optimization), returning the first match, with the spec's
stated fallbacks. -/
def classifySpec (text : List Char) : String :=
  let tl := text.map Char.toLower
  if equationCue tl then "equation"
  else if derivativeCue tl then "derivative"
  else if integralCue tl then "integral"
  else if limitCue tl then "limit"
  else if matrixCue tl then "matrix"
  else if simplifyCue tl then "simplify"
  else if graphCue tl then "graph"
  else if optimizationCue tl then "optimization"
  else if text.contains '=' && commonSymbols.any (fun v => text.contains v) then "equation"
  else if (['+', '-', '*', '/', '^'] : List Char).any (fun op => text.contains op) then "simplify"
  else "general"

/-!
Solve dispatch — embeds `_solve_by_type` and the placeholder solvers
(src/backend/services/math_solver.py, lines 274-302 and 581-591).
-/

/-- Result dictionary shape returned by the per-type solver methods. -/
structure SolveOutcome where
  success : Bool
  solution : String := ""
  steps : List String := []
  latex : String := ""
  error : String := ""
deriving DecidableEq, Repr

/-- Embeds `_solve_limit` (source lines 581-583): placeholder. -/
def solve_limit (_exprs : List String) (_context : String) : SolveOutcome :=
  { success := false, error := "Limit solving not yet implemented" }

/-- Embeds `_solve_matrix` (source lines 585-587): placeholder. -/
def solve_matrix (_exprs : List String) (_context : String) : SolveOutcome :=
  { success := false, error := "Matrix solving not yet implemented" }

/-- Embeds `_solve_optimization` (source lines 589-591): placeholder. -/
def solve_optimization (_exprs : List String) (_context : String) : SolveOutcome :=
  { success := false, error := "Optimization solving not yet implemented" }

/-- Embeds `_solve_by_type` (source lines 274-302).  The equation, derivative,
integral, simplify and general solvers call the external symbolic engine, so
they are taken as parameters; the limit, matrix and optimization branches
dispatch to the concrete placeholders above.  A type other than the eight
dispatched labels falls through to the general solver. -/
def solve_by_type
    (solveEquation solveDerivative solveIntegral solveSimplify solveGeneral :
      List String → String → SolveOutcome)
    (problemType : String) (exprs : List String) (context : String) : SolveOutcome :=
  if problemType = "equation" then solveEquation exprs context
  else if problemType = "derivative" then solveDerivative exprs context
  else if problemType = "integral" then solveIntegral exprs context
  else if problemType = "limit" then solve_limit exprs context
  else if problemType = "matrix" then solve_matrix exprs context
  else if problemType = "simplify" then solveSimplify exprs context
  else if problemType = "optimization" then solve_optimization exprs context
  else solveGeneral exprs context

/-- Helper: unfold one step of find? into an if-then-else. -/
lemma find?_cons_ite {α : Type} (p : α → Bool) (a : α) (l : List α) :
    List.find? p (a :: l) = if p a then some a else List.find? p l := by
  by_cases h : p a
  · simp [List.find?_cons_of_pos, h]
  · simp [List.find?_cons_of_neg, h]

set_option maxHeartbeats 1600000 in
/-- C6: for every input text, classification returns the first matching
category in the fixed priority order equation, derivative, integral, limit,
matrix, simplify, graph, optimization; if no pattern matches, it returns
equation when an equals sign is present alongside a known variable letter,
simplify when an arithmetic operator is present, and general otherwise.
Stated as: the source's table-driven classifier agrees with the priority
chain written out in the spec's order, for all inputs (hence for every
permutation of cues in the text the higher-priority category wins). -/
theorem claim_c6 (text : List Char) :
    identify_problem_type text = classifySpec text := by
  simp only [identify_problem_type, classifySpec, problemPatterns, find?_cons_ite,
    List.find?_nil]
  split_ifs <;> rfl

/-- C9: for every input text classified as limit, matrix or optimization, the
solve dispatch returns success false together with a not-yet-implemented
error message, whatever the external solvers for the other categories do;
these three advertised categories never produce a successful solution. -/
theorem claim_c9
    (fE fD fI fS fG : List String → String → SolveOutcome)
    (text : List Char) (exprs : List String) (context : String)
    (h : identify_problem_type text = "limit" ∨ identify_problem_type text = "matrix" ∨
         identify_problem_type text = "optimization") :
    (solve_by_type fE fD fI fS fG (identify_problem_type text) exprs context).success = false ∧
    ((solve_by_type fE fD fI fS fG (identify_problem_type text) exprs context).error
        = "Limit solving not yet implemented" ∨
     (solve_by_type fE fD fI fS fG (identify_problem_type text) exprs context).error
        = "Matrix solving not yet implemented" ∨
     (solve_by_type fE fD fI fS fG (identify_problem_type text) exprs context).error
        = "Optimization solving not yet implemented") := by
  rcases h with h | h | h <;> rw [h]
  · exact ⟨rfl, Or.inl rfl⟩
  · exact ⟨rfl, Or.inr (Or.inl rfl)⟩
  · exact ⟨rfl, Or.inr (Or.inr rfl)⟩

/-- A trivial stand-in for the external symbolic solvers, which always
reports success, used to witness that the dispatch ignores it for the three
placeholder categories. -/
def alwaysSucceeds : List String → String → SolveOutcome :=
  fun _ _ => { success := true, solution := "done" }

/-- Witness for C9 at the concrete text about a matrix determinant, which the
classifier maps to the matrix category. -/
theorem claim_c9_witness :
    (solve_by_type alwaysSucceeds alwaysSucceeds alwaysSucceeds alwaysSucceeds alwaysSucceeds
      (identify_problem_type "compute the determinant of the matrix".toList) [] "").success
        = false :=
  (claim_c9 alwaysSucceeds alwaysSucceeds alwaysSucceeds alwaysSucceeds alwaysSucceeds
    "compute the determinant of the matrix".toList [] ""
    (Or.inr (Or.inl (by decide)))).1

/-!
Expression extraction — embeds `_extract_expressions`
(src/backend/services/math_solver.py, lines 214-263).
-/

/-- The instruction-word pattern removed first by `_extract_expressions`
(source line 227), under the ignore-case flag. -/
def instrWordsPat : List RAtom :=
  [RAtom.bnd,
   RAtom.strs [ciWord "solve", ciWord "find", ciWord "calculate", ciWord "determine",
               ciWord "compute", ciWord "evaluate", ciWord "simplify"],
   RAtom.bnd]

/-- The expression character class of the equation pattern (letters, digits,
plus, minus, star, slash, caret, parentheses and whitespace). -/
def clsExprChar (c : Char) : Bool :=
  c.isAlpha || c.isDigit || oneOf "+-*/^()" c || pySpace c

/-- The same class extended with a dot, used by the first two fallback
patterns. -/
def clsExprDotChar (c : Char) : Bool :=
  c.isAlpha || c.isDigit || oneOf "+-*/^()." c || pySpace c

/-- The class of the function-call fallback pattern (dot replaced by a
comma). -/
def clsExprCommaChar (c : Char) : Bool :=
  c.isAlpha || c.isDigit || oneOf "+-*/^()," c || pySpace c

/-- The equation pattern (source line 231): a letter, expression characters,
an equals sign, whitespace, expression characters. -/
def equationPat : List RAtom :=
  [RAtom.one Char.isAlpha, RAtom.many0 clsExprChar, RAtom.one (fun c => c = '='),
   RAtom.many0 pySpace, RAtom.many0 clsExprChar]

/-- Fallback pattern for parenthesized products such as a sum times a
difference (source line 242). -/
def parenProductPat : List RAtom :=
  [RAtom.one (fun c => c = '('), RAtom.many1 clsExprDotChar, RAtom.one (fun c => c = ')'),
   RAtom.one (fun c => c = '('), RAtom.many1 clsExprDotChar, RAtom.one (fun c => c = ')')]

/-- Fallback pattern for general expression spans with an optional
caret-digits suffix (source line 243). -/
def generalExprPat : List RAtom :=
  [RAtom.many1 clsExprDotChar, RAtom.optLitPlus (fun c => c = '^') Char.isDigit]

/-- Fallback pattern for coefficient writing, digits followed by one letter
between word boundaries (source line 244). -/
def coeffPat : List RAtom :=
  [RAtom.bnd, RAtom.many1 Char.isDigit, RAtom.one Char.isAlpha, RAtom.bnd]

/-- Fallback pattern for function application, a letter applied to a
parenthesized argument list (source line 245). -/
def funcCallPat : List RAtom :=
  [RAtom.one Char.isAlpha, RAtom.one (fun c => c = '('),
   RAtom.many1 clsExprCommaChar, RAtom.one (fun c => c = ')')]

/-- Matches of one pattern, each stripped, kept when longer than two
characters — the filtering applied to every pattern's matches in
`_extract_expressions`. -/
def filteredCandidates (pat : List RAtom) (cs : List Char) : List (List Char) :=
  (findAll pat cs).filterMap (fun m =>
    let c := pyStrip m
    if 2 < c.length then some c else none)

/-- Order-preserving duplicate removal with an explicit seen set, as in the
source's final loop (source lines 256-261). -/
def dedupAux : List (List Char) → List (List Char) → List (List Char)
  | _, [] => []
  | seen, e :: rest =>
      if e ∈ seen then dedupAux seen rest else e :: dedupAux (e :: seen) rest

/-- Order-preserving duplicate removal. -/
def dedup (l : List (List Char)) : List (List Char) := dedupAux [] l

/-- Embeds `_extract_expressions` (source lines 214-263): remove instruction
words and strip, collect equation-shaped candidates, and only when none
exist run the four fallback patterns — all of them, appending the filtered
matches of each in order — then deduplicate preserving first occurrence. -/
def extract_expressions (text : List Char) : List (List Char) :=
  let cleaned := pyStrip (subAll instrWordsPat text)
  let eqCands := filteredCandidates equationPat cleaned
  let exprs :=
    if eqCands.isEmpty then
      eqCands ++ filteredCandidates parenProductPat cleaned
        ++ filteredCandidates generalExprPat cleaned
        ++ filteredCandidates coeffPat cleaned
        ++ filteredCandidates funcCallPat cleaned
    else eqCands
  dedup exprs

/-- First fallback pattern, in order, whose filtered candidate list is
non-empty; later patterns contribute nothing. -/
def firstProductive (cleaned : List Char) : List (List RAtom) → List (List Char)
  | [] => []
  | p :: ps =>
      let ms := filteredCandidates p cleaned
      if ms.isEmpty then firstProductive cleaned ps else ms

/-- Modelled from the spec following its words, for comparison with the
source: identical to the source extraction except that the fallback chain
stops as soon as any pattern yields at least one candidate of length greater
than two. -/
def extractExpressionsSpec (text : List Char) : List (List Char) :=
  let cleaned := pyStrip (subAll instrWordsPat text)
  let eqCands := filteredCandidates equationPat cleaned
  dedup (if eqCands.isEmpty then
    firstProductive cleaned [parenProductPat, generalExprPat, coeffPat, funcCallPat]
  else eqCands)

/-- Membership in the deduplicated list with an explicit seen set. -/
lemma mem_dedupAux (x : List Char) : ∀ (l seen : List (List Char)),
    x ∈ dedupAux seen l ↔ x ∈ l ∧ x ∉ seen := by
  intro l
  induction l with
  | nil => intro seen; simp [dedupAux]
  | cons e rest ih =>
      intro seen
      by_cases h : e ∈ seen
      · simp only [dedupAux, if_pos h, ih, List.mem_cons]
        constructor
        · rintro ⟨hx, hs⟩; exact ⟨Or.inr hx, hs⟩
        · rintro ⟨hx | hx, hs⟩
          · exact absurd (hx ▸ h) hs
          · exact ⟨hx, hs⟩
      · simp only [dedupAux, if_neg h, List.mem_cons, ih]
        constructor
        · rintro (hx | ⟨hx, hs⟩)
          · exact ⟨Or.inl hx, hx ▸ h⟩
          · exact ⟨Or.inr hx, fun hmem => hs (Or.inr hmem)⟩
        · rintro ⟨hx | hx, hs⟩
          · exact Or.inl hx
          · by_cases hxe : x = e
            · exact Or.inl hxe
            · exact Or.inr ⟨hx, fun hmem => by
                rcases hmem with h1 | h1
                · exact hxe h1
                · exact hs h1⟩

/-- Deduplication preserves membership. -/
lemma mem_dedup (x : List Char) (l : List (List Char)) : x ∈ dedup l ↔ x ∈ l := by
  simp [dedup, mem_dedupAux]

/-- Counterexample to C2: on the concrete input with a coefficient term
followed by a parenthesized product, the first fallback pattern already
yields a candidate longer than two characters, yet the second fallback
pattern still contributes a further expression; the source extraction
therefore differs from the stop-at-first-productive-pattern behaviour the
spec describes. -/
theorem claim_c2_counterexample :
    extract_expressions "2x (a+b)(a-b)".toList
      = ["(a+b)(a-b)".toList, "2x (a+b)(a-b)".toList] ∧
    extractExpressionsSpec "2x (a+b)(a-b)".toList = ["(a+b)(a-b)".toList] ∧
    extract_expressions "2x (a+b)(a-b)".toList
      ≠ extractExpressionsSpec "2x (a+b)(a-b)".toList := by
  refine ⟨by decide, by decide, by decide⟩

/-- C2 as amended: when the equation pattern yields candidates the fallbacks
are not consulted; when it yields none, all four fallback patterns are tried
and every one of them contributes its candidates of length greater than two
(duplicates removed, first occurrence kept) — the chain does not stop at the
first productive fallback pattern. -/
theorem claim_c2_amended (text : List Char) :
    (filteredCandidates equationPat (pyStrip (subAll instrWordsPat text)) ≠ [] →
      extract_expressions text =
        dedup (filteredCandidates equationPat (pyStrip (subAll instrWordsPat text)))) ∧
    (filteredCandidates equationPat (pyStrip (subAll instrWordsPat text)) = [] →
      ∀ c, c ∈ extract_expressions text ↔
        c ∈ filteredCandidates parenProductPat (pyStrip (subAll instrWordsPat text))
          ++ filteredCandidates generalExprPat (pyStrip (subAll instrWordsPat text))
          ++ filteredCandidates coeffPat (pyStrip (subAll instrWordsPat text))
          ++ filteredCandidates funcCallPat (pyStrip (subAll instrWordsPat text))) := by
  constructor
  · intro h
    cases hc : filteredCandidates equationPat (pyStrip (subAll instrWordsPat text)) with
    | nil => exact absurd hc h
    | cons a as => simp [extract_expressions, hc]
  · intro h c
    simp [extract_expressions, h, mem_dedup]

/-- Witness for C2 as amended: on the counterexample input the equation
pattern yields nothing, and the general-span candidate contributed by the
second fallback pattern is indeed in the extraction result. -/
theorem claim_c2_witness :
    "2x (a+b)(a-b)".toList ∈ extract_expressions "2x (a+b)(a-b)".toList :=
  ((claim_c2_amended "2x (a+b)(a-b)".toList).2 (by decide)
    "2x (a+b)(a-b)".toList).mpr (by decide)

/-!
Content validator — embeds `ContentValidator`
(src/backend/utils/validators.py, lines 28-137 and 218-289), together with
the text-based validation entry added at the bottom of
src/backend/services/math_solver.py (lines 622-648).
-/

/-- The English mathematical keyword list (validators.py lines 30-68). -/
def mathematicalKeywords : List String :=
  ["solve", "equation", "calculate", "find", "prove", "show",
   "determine", "compute", "evaluate", "simplify",
   "algebra", "polynomial", "quadratic", "linear", "variable",
   "coefficient", "factor", "expand", "expression",
   "calculus", "derivative", "integral", "limit", "continuity",
   "differentiate", "integrate", "optimization", "chain rule",
   "geometry", "triangle", "circle", "angle", "area", "volume",
   "perimeter", "theorem", "proof", "coordinate", "vector",
   "trigonometry", "sin", "cos", "tan", "sine", "cosine", "tangent",
   "radian", "degree", "amplitude", "period", "frequency",
   "statistics", "probability", "mean", "median", "mode", "variance",
   "standard deviation", "distribution", "sample", "population",
   "correlation", "regression", "hypothesis",
   "matrix", "determinant", "eigenvalue", "eigenvector", "linear algebra",
   "differential equation", "partial derivative", "series", "sequence",
   "convergence", "divergence", "fourier", "laplace",
   "∫", "∑", "∏", "∂", "∇", "∆", "lim", "max", "min", "log", "ln",
   "√", "∞", "≤", "≥", "≠", "≈", "∈", "∉", "⊂", "⊆", "∪", "∩",
   "meter", "centimeter", "kilometer", "gram", "kilogram", "second",
   "minute", "hour", "degree celsius", "fahrenheit", "kelvin"]

/-- The Italian mathematical keyword list (validators.py lines 71-78). -/
def italianMathKeywords : List String :=
  ["risolvere", "equazione", "calcolare", "trovare", "dimostrare",
   "determinare", "semplificare", "algebra", "geometria", "calcolo",
   "derivata", "integrale", "limite", "funzione", "grafico",
   "triangolo", "cerchio", "angolo", "area", "volume", "perimetro",
   "statistica", "probabilità", "media", "mediana", "varianza",
   "matrice", "determinante", "vettore", "polinomio", "radice"]

/-- The combined keyword list `all_keywords` (validators.py line 80). -/
def allKeywords : List String := mathematicalKeywords ++ italianMathKeywords

/-- The deny list `forbidden_keywords` (validators.py lines 83-87). -/
def forbiddenKeywords : List String :=
  ["hack", "crack", "exploit", "malware", "virus", "password",
   "personal", "private", "confidential", "secret", "illegal",
   "violence", "weapon", "drug", "adult", "explicit"]

/-- Embeds `_contains_forbidden_content` (validators.py lines 218-235):
lowercase the text and report whether any deny-list keyword occurs in it as
a substring. -/
def contains_forbidden_content (text : List Char) : Bool :=
  let tl := text.map Char.toLower
  forbiddenKeywords.any (fun kw => decide (kw.toList <:+: tl))

/-- The structural symbol patterns of `_calculate_mathematical_score`
(validators.py lines 266-276), searched on the original text and weighted
double. -/
def mathSymbolPats : List (List RAtom) :=
  [[RAtom.many1 Char.isDigit, RAtom.many0 pySpace, RAtom.one (oneOf "+-*/="),
    RAtom.many0 pySpace, RAtom.many1 Char.isDigit],
   [RAtom.one (oneOf "xy"), RAtom.many0 pySpace, RAtom.one (oneOf "+-"),
    RAtom.many0 pySpace, RAtom.many1 Char.isDigit],
   [RAtom.bnd, RAtom.many1 Char.isDigit, RAtom.one (fun c => c = 'x'), RAtom.bnd],
   [RAtom.one (fun c => c.isLower && c.isAlpha), RAtom.one (fun c => c = '('),
    RAtom.many1 pyWordChar, RAtom.one (fun c => c = ')')],
   [RAtom.bnd, RAtom.many1 Char.isDigit, RAtom.one (fun c => c = '/'),
    RAtom.many1 Char.isDigit, RAtom.bnd],
   [RAtom.one (fun c => c = '^'), RAtom.many1 Char.isDigit],
   [RAtom.one (fun c => c = '√'), RAtom.many1 Char.isDigit],
   [RAtom.one (oneOf "∫∑∏∂∇∆")],
   [RAtom.one (oneOf "≤≥≠≈∈∉⊂⊆∪∩")]]

/-- Number of word tokens in the text: the count of maximal runs of word
characters, which is the number of matches of the word-token pattern used
at validators.py line 251. -/
def countWordsAux : Bool → List Char → Nat
  | _, [] => 0
  | inWord, c :: rest =>
      if pyWordChar c then
        (if inWord then 0 else 1) + countWordsAux true rest
      else countWordsAux false rest

/-- Number of word tokens in the text. -/
def countWords (cs : List Char) : Nat := countWordsAux false cs

/-- Embeds `_calculate_mathematical_score` (validators.py lines 237-289):
the weighted keyword count over the lowercased text plus the doubled symbol
pattern count over the original text, divided by half the word count and
clamped to one.  The source's floating point arithmetic is modelled exactly
over the rationals. -/
def calculate_mathematical_score (text : List Char) : ℚ :=
  if text.isEmpty then 0
  else
    let tl := text.map Char.toLower
    let words := countWords tl
    if words = 0 then 0
    else
      let mathWordCount : ℚ := allKeywords.foldl
        (fun acc kw =>
          if decide (kw.toList <:+: tl) then
            acc + (countSub kw.toList tl : ℚ) * ((kw.length : ℚ) / 10 + 1)
          else acc) 0
      let symbolCount : ℚ := mathSymbolPats.foldl
        (fun acc pat => acc + ((findAll pat text).length : ℚ) * 2) 0
      let totalScore := mathWordCount + symbolCount
      let maxPossibleScore : ℚ := (words : ℚ) * (1 / 2)
      if 0 < maxPossibleScore then min (totalScore / maxPossibleScore) 1 else 0

/-- Outcome of text-content validation, carrying the structured reason
(the source formats the score into the reason string). -/
inductive ValidationOutcome where
  | emptyContent : ValidationOutcome
  | forbiddenContent : ValidationOutcome
  | insufficientScore : ℚ → ValidationOutcome
  | validContent : ℚ → ValidationOutcome
deriving DecidableEq, Repr

/-- Verdict carried by a validation outcome. -/
def ValidationOutcome.verdict : ValidationOutcome → Bool
  | ValidationOutcome.validContent _ => true
  | _ => false

/-- Embeds `validate_mathematical_content_text` (math_solver.py lines
622-645), which is also the text portion of `validate_mathematical_content`
(validators.py lines 121-132) applied after extraction: reject empty or
whitespace-only text, then reject on forbidden content regardless of the
score, then reject scores below one tenth, otherwise accept. -/
def validate_mathematical_content_text (text : List Char) : ValidationOutcome :=
  if (pyStrip text).isEmpty then ValidationOutcome.emptyContent
  else if contains_forbidden_content text then ValidationOutcome.forbiddenContent
  else
    let score := calculate_mathematical_score text
    if score < 1 / 10 then ValidationOutcome.insufficientScore score
    else ValidationOutcome.validContent score

/-- A fold whose step never decreases its accumulator is bounded below by
the starting accumulator. -/
lemma le_foldl_of_step_le {α : Type} (f : ℚ → α → ℚ) (hf : ∀ a x, a ≤ f a x) :
    ∀ (l : List α) (a : ℚ), a ≤ l.foldl f a := by
  intro l
  induction l with
  | nil => intro a; simp
  | cons x xs ih => intro a; exact le_trans (hf a x) (ih (f a x))

/-- C7: for every input text the relevance score lies in the closed unit
interval, and any text whose lowercasing contains no word token (in
particular the empty text) scores exactly zero. -/
theorem claim_c7 (text : List Char) :
    0 ≤ calculate_mathematical_score text ∧ calculate_mathematical_score text ≤ 1 ∧
    (countWords (text.map Char.toLower) = 0 → calculate_mathematical_score text = 0) := by
  simp only [calculate_mathematical_score]
  split_ifs with h1 h2 h3
  · exact ⟨le_refl 0, by norm_num, fun _ => rfl⟩
  · exact ⟨le_refl 0, by norm_num, fun _ => rfl⟩
  · have hword : (0 : ℚ) ≤ allKeywords.foldl
        (fun acc kw =>
          if decide (kw.toList <:+: text.map Char.toLower) then
            acc + (countSub kw.toList (text.map Char.toLower) : ℚ) * ((kw.length : ℚ) / 10 + 1)
          else acc) 0 := by
      apply le_foldl_of_step_le
      intro a kw
      split_ifs
      · have : (0 : ℚ) ≤ (countSub kw.toList (text.map Char.toLower) : ℚ)
            * ((kw.length : ℚ) / 10 + 1) := by positivity
        linarith
      · exact le_refl a
    have hsym : (0 : ℚ) ≤ mathSymbolPats.foldl
        (fun acc pat => acc + ((findAll pat text).length : ℚ) * 2) 0 := by
      apply le_foldl_of_step_le
      intro a pat
      have : (0 : ℚ) ≤ ((findAll pat text).length : ℚ) * 2 := by positivity
      linarith
    refine ⟨le_min (div_nonneg (by linarith) (le_of_lt h3)) zero_le_one,
      min_le_right _ _, fun hw => absurd hw h2⟩
  · exact ⟨le_refl 0, by norm_num, fun _ => rfl⟩

/-- Witness for C7: the empty text and a wordless text both score zero, and
the score is within bounds there. -/
theorem claim_c7_witness :
    calculate_mathematical_score "".toList = 0 ∧
    0 ≤ calculate_mathematical_score "+++".toList ∧
    calculate_mathematical_score "+++".toList = 0 :=
  ⟨(claim_c7 "".toList).2.2 (by decide), (claim_c7 "+++".toList).1,
   (claim_c7 "+++".toList).2.2 (by decide)⟩

/-- C8: the forbidden-content check is case-insensitive — a text is flagged
exactly when its lowercased form contains a deny-list keyword — and its
verdict is independent of the relevance score: any flagged text is rejected
by content validation no matter what it would score. -/
theorem claim_c8 (text : List Char) :
    (contains_forbidden_content text = true ↔
      ∃ kw ∈ forbiddenKeywords, kw.toList <:+: text.map Char.toLower) ∧
    (contains_forbidden_content text = true →
      (validate_mathematical_content_text text).verdict = false) := by
  constructor
  · simp [contains_forbidden_content, List.any_eq_true]
  · intro h
    simp only [validate_mathematical_content_text, h]
    split_ifs <;> rfl

/-- Witness for C8 at the spec's scenario input about hacking: flagged as
forbidden and rejected by validation. -/
theorem claim_c8_witness :
    contains_forbidden_content "How to hack into systems".toList = true ∧
    (validate_mathematical_content_text "How to hack into systems".toList).verdict = false :=
  ⟨by decide, (claim_c8 "How to hack into systems".toList).2 (by decide)⟩

/-!
Orchestrator — embeds `SchedulerService.process_single_problem` and
`check_and_process_new_problems`
(src/backend/services/scheduler_service.py, lines 128-352).  The external
collaborators (repository client, solver, mailer) are modelled by their
outcomes, passed in as values and functions; timestamps are abstract
numbers.
-/

/-- Result dictionary of the external `solve_problem` call, as consumed by
the orchestrator (success flag and error message are inspected; the rest is
carried opaquely). -/
structure SolveResult where
  success : Bool
  problemType : String := ""
  solution : String := ""
  errorMessage : String := ""
deriving DecidableEq, Repr

/-- Per-item result dictionary produced by `process_single_problem`.  The
optional payload fields mirror the keys `solution_attempt`, `solution_data`
and `solution_result` attached on the corresponding paths. -/
structure ItemResult where
  success : Bool
  fileName : String
  error : Option String := none
  solutionAttempt : Option SolveResult := none
  solutionData : Option SolveResult := none
  solutionResult : Option SolveResult := none
  message : Option String := none
deriving DecidableEq, Repr

/-- Embeds `process_single_problem` (scheduler_service.py lines 226-340)
with each collaborator call replaced by its outcome: download success,
safety verdict and reason, content verdict and reason, extracted text,
solve result, upload success, index-page update success and notification
success.  The source checks the download, safety, content, extraction,
solve and upload outcomes in that order; the return values of the
index-page update and of the notification are not inspected. -/
def process_single_problem (fileName : String)
    (downloadOk : Bool)
    (safetyOk : Bool) (safetyReason : String)
    (mathOk : Bool) (mathReason : String)
    (textContent : Option String)
    (solveResult : SolveResult)
    (uploadOk : Bool)
    (_updatePageOk : Bool) (_notifyOk : Bool) : ItemResult :=
  if !downloadOk then
    { success := false, fileName, error := some "Failed to download file from GitHub" }
  else if !safetyOk then
    { success := false, fileName,
      error := some ("File safety validation failed: " ++ safetyReason) }
  else if !mathOk then
    { success := false, fileName,
      error := some ("Mathematical content validation failed: " ++ mathReason) }
  else
    match textContent with
    | none =>
        { success := false, fileName,
          error := some "Could not extract text content from file" }
    | some _ =>
        if !solveResult.success then
          { success := false, fileName, error := some solveResult.errorMessage,
            solutionAttempt := some solveResult }
        else if !uploadOk then
          { success := false, fileName,
            error := some "Failed to upload solution to GitHub",
            solutionData := some solveResult }
        else
          { success := true, fileName, solutionResult := some solveResult,
            message := some "Problem solved and solution uploaded successfully" }

/-- A discovered file as consumed by the run loop. -/
structure FileInfo where
  name : String
deriving DecidableEq, Repr

/-- The in-memory statistics dictionary `self.stats` (scheduler_service.py
lines 60-69), with timestamps as abstract numbers. -/
structure Stats where
  totalRuns : Nat := 0
  successfulRuns : Nat := 0
  failedRuns : Nat := 0
  problemsSolved : Nat := 0
  problemsFailed : Nat := 0
  lastRun : Option Nat := none
  lastSuccess : Option Nat := none
  lastError : Option String := none
deriving DecidableEq, Repr

/-- Run summary dictionary returned by `check_and_process_new_problems`. -/
structure RunSummary where
  success : Bool
  newFiles : Nat
  processed : Nat
  errors : Nat
  message : Option String := none
  error : Option String := none
  results : List ItemResult := []
deriving DecidableEq, Repr

/-- Observable output of one run: its summary, the statistics afterwards,
and how often each lifecycle callback set fired. -/
structure RunOutput where
  summary : RunSummary
  stats : Stats
  onSolutionCompleteCount : Nat
  onErrorCount : Nat
deriving DecidableEq, Repr

/-- Accumulator of the per-file loop (scheduler_service.py lines 160-188). -/
structure LoopAcc where
  processed : Nat := 0
  errors : Nat := 0
  solved : Nat := 0
  failed : Nat := 0
  onComplete : Nat := 0
  onError : Nat := 0
  results : List ItemResult := []
deriving DecidableEq, Repr

/-- One iteration of the per-file loop: the item outcome is either a result
dictionary or a raised exception; an exception is caught, counted as an
error and recorded as an error result for the file, and the loop always
continues with the next file. -/
def processLoopStep (p : FileInfo → Except String ItemResult)
    (acc : LoopAcc) (fi : FileInfo) : LoopAcc :=
  match p fi with
  | Except.ok r =>
      if r.success then
        { acc with processed := acc.processed + 1, solved := acc.solved + 1,
                   onComplete := acc.onComplete + 1, results := acc.results ++ [r] }
      else
        { acc with errors := acc.errors + 1, failed := acc.failed + 1,
                   onError := acc.onError + 1, results := acc.results ++ [r] }
  | Except.error e =>
      { acc with errors := acc.errors + 1, failed := acc.failed + 1,
                 onError := acc.onError + 1,
                 results := acc.results ++
                   [{ success := false, fileName := fi.name, error := some e }] }

/-- Embeds `check_and_process_new_problems` (scheduler_service.py lines
128-224).  `newFilesResult` is the outcome of the discovery call — a list
of files, or the exception it raised; `p` gives each file's processing
outcome.  The total-runs counter and last-run stamp are updated first; a
discovery failure is caught and surfaced as a failed summary; an empty
discovery returns early with a successful summary, skipping the per-run
bookkeeping; otherwise each file is processed in isolation and the
run-outcome statistics are updated after the loop. -/
def check_and_process_new_problems (stats : Stats) (now : Nat)
    (newFilesResult : Except String (List FileInfo))
    (p : FileInfo → Except String ItemResult) : RunOutput :=
  let stats1 := { stats with totalRuns := stats.totalRuns + 1, lastRun := some now }
  match newFilesResult with
  | Except.error e =>
      { summary := { success := false, newFiles := 0, processed := 0, errors := 1,
                     error := some e },
        stats := { stats1 with failedRuns := stats1.failedRuns + 1, lastError := some e },
        onSolutionCompleteCount := 0, onErrorCount := 0 }
  | Except.ok [] =>
      { summary := { success := true, newFiles := 0, processed := 0, errors := 0,
                     message := some "No new files to process" },
        stats := stats1,
        onSolutionCompleteCount := 0, onErrorCount := 0 }
  | Except.ok (f :: fs) =>
      let acc := (f :: fs).foldl (processLoopStep p) {}
      let stats2 := { stats1 with
        problemsSolved := stats1.problemsSolved + acc.solved,
        problemsFailed := stats1.problemsFailed + acc.failed }
      let stats3 :=
        if acc.errors = 0 then
          { stats2 with successfulRuns := stats2.successfulRuns + 1,
                        lastSuccess := some now }
        else { stats2 with failedRuns := stats2.failedRuns + 1 }
      { summary := { success := true, newFiles := (f :: fs).length,
                     processed := acc.processed, errors := acc.errors,
                     results := acc.results },
        stats := stats3,
        onSolutionCompleteCount := acc.onComplete, onErrorCount := acc.onError }

/-- Embeds `manual_trigger` (scheduler_service.py lines 342-352): it runs
the check-and-process body directly and returns its result, with no
run-in-progress guard of any kind. -/
def manual_trigger (stats : Stats) (now : Nat)
    (newFilesResult : Except String (List FileInfo))
    (p : FileInfo → Except String ItemResult) : RunOutput :=
  check_and_process_new_problems stats now newFilesResult p

/-- Counterexample to C1: starting from fresh statistics, a run whose
discovery returns zero items leaves the successful-runs counter unchanged —
the early return on an empty discovery skips the per-run bookkeeping — so
the counter is not incremented as the claim states. -/
theorem claim_c1_counterexample :
    (check_and_process_new_problems {} 7 (Except.ok [])
        (fun _ => Except.error "unused")).stats.successfulRuns
      ≠ ({} : Stats).successfulRuns + 1 := by decide

/-- C1 as amended: a run in which discovery returns zero items yields a
summary with success true, zero processed and zero errors, and increments
the total-runs counter and stamps the last run; but the early return skips
the run-outcome update, so the successful-runs counter — like the
failed-runs, problems and last-success fields — is left unchanged. -/
theorem claim_c1_amended (stats : Stats) (now : Nat)
    (p : FileInfo → Except String ItemResult) :
    (check_and_process_new_problems stats now (Except.ok []) p).summary.success = true ∧
    (check_and_process_new_problems stats now (Except.ok []) p).summary.processed = 0 ∧
    (check_and_process_new_problems stats now (Except.ok []) p).summary.errors = 0 ∧
    (check_and_process_new_problems stats now (Except.ok []) p).stats.totalRuns
      = stats.totalRuns + 1 ∧
    (check_and_process_new_problems stats now (Except.ok []) p).stats.lastRun = some now ∧
    (check_and_process_new_problems stats now (Except.ok []) p).stats.successfulRuns
      = stats.successfulRuns ∧
    (check_and_process_new_problems stats now (Except.ok []) p).stats.failedRuns
      = stats.failedRuns ∧
    (check_and_process_new_problems stats now (Except.ok []) p).stats.problemsSolved
      = stats.problemsSolved ∧
    (check_and_process_new_problems stats now (Except.ok []) p).stats.problemsFailed
      = stats.problemsFailed ∧
    (check_and_process_new_problems stats now (Except.ok []) p).stats.lastSuccess
      = stats.lastSuccess ∧
    (check_and_process_new_problems stats now (Except.ok []) p).stats.lastError
      = stats.lastError :=
  ⟨rfl, rfl, rfl, rfl, rfl, rfl, rfl, rfl, rfl, rfl, rfl⟩

/-- A concrete successful solve result used in scheduler scenarios. -/
def solvedOk : SolveResult :=
  { success := true, problemType := "equation", solution := "x = 2" }

/-- Counterexample to C3: after a successful solve and a successful upload,
both the index-page update and the notification fail, yet the item is still
reported as a full success — the source never inspects those two return
values, so such an item is not downgraded to a per-item failure. -/
theorem claim_c3_counterexample :
    (process_single_problem "prob.txt" true true "" true "" (some "x = 2")
        solvedOk true false false).success = true := by decide

/-- C3 as amended: after a successful solve, only an upload failure
downgrades the item — to a per-item failure that carries the solve payload
in the solution-data field so delivery can be retried without re-solving —
while the outcomes of the index-page update and of the notification are
ignored: once the upload succeeds the item is reported as a full success,
whatever those two outcomes are. -/
theorem claim_c3_amended (fileName safetyReason mathReason txt : String)
    (sr : SolveResult) (updOk ntfOk : Bool) (hs : sr.success = true) :
    (process_single_problem fileName true true safetyReason true mathReason
        (some txt) sr false updOk ntfOk).success = false ∧
    (process_single_problem fileName true true safetyReason true mathReason
        (some txt) sr false updOk ntfOk).solutionData = some sr ∧
    (process_single_problem fileName true true safetyReason true mathReason
        (some txt) sr false updOk ntfOk).error
      = some "Failed to upload solution to GitHub" ∧
    (process_single_problem fileName true true safetyReason true mathReason
        (some txt) sr true updOk ntfOk).success = true ∧
    (process_single_problem fileName true true safetyReason true mathReason
        (some txt) sr true updOk ntfOk).solutionResult = some sr := by
  simp [process_single_problem, hs]

/-- Witness for C3 as amended at concrete inputs: an upload failure yields a
failure result still carrying the solve payload. -/
theorem claim_c3_witness :
    (process_single_problem "p.txt" true true "" true "" (some "x = 2")
        solvedOk false false false).success = false ∧
    (process_single_problem "p.txt" true true "" true "" (some "x = 2")
        solvedOk false false false).solutionData = some solvedOk :=
  ⟨(claim_c3_amended "p.txt" "" "" "x = 2" solvedOk false false (by decide)).1,
   (claim_c3_amended "p.txt" "" "" "x = 2" solvedOk false false (by decide)).2.1⟩

/-- Does an item-processing outcome count as a failure for the run loop —
either a raised exception or a result with success false? -/
def failsB : Except String ItemResult → Bool
  | Except.error _ => true
  | Except.ok r => !r.success

/-- One loop iteration appends exactly one entry to the result list,
whatever the item's outcome. -/
lemma processLoopStep_results_length (p : FileInfo → Except String ItemResult)
    (acc : LoopAcc) (f : FileInfo) :
    (processLoopStep p acc f).results.length = acc.results.length + 1 := by
  cases hp : p f with
  | ok r =>
      by_cases hr : r.success
      · simp [processLoopStep, hp, hr]
      · simp [processLoopStep, hp, hr]
  | error e => simp [processLoopStep, hp]

/-- Every file contributes exactly one entry to the loop's result list,
whatever its outcome. -/
lemma loop_results_length (p : FileInfo → Except String ItemResult) :
    ∀ (files : List FileInfo) (acc : LoopAcc),
      ((files.foldl (processLoopStep p) acc).results).length
        = acc.results.length + files.length := by
  intro files
  induction files with
  | nil => intro acc; simp
  | cons f fs ih =>
      intro acc
      rw [List.foldl_cons, ih (processLoopStep p acc f),
        processLoopStep_results_length]
      simp only [List.length_cons]
      omega

/-- C5: items are processed in isolation.  First, every discovered item
produces a result entry in the run summary, whatever happened to the items
before it (one failure never prevents later items from being processed).
Second, in a run with two discovered items in which the first fails — by a
failed result, as at the safety-validation step, or by a raised exception —
and the second fully succeeds, the summary reports one processed and one
error, the error callback fires exactly once and the solution-complete
callback fires exactly once. -/
theorem claim_c5 :
    (∀ (stats : Stats) (now : Nat) (p : FileInfo → Except String ItemResult)
       (files : List FileInfo),
        (check_and_process_new_problems stats now (Except.ok files) p).summary.results.length
          = files.length) ∧
    (∀ (stats : Stats) (now : Nat) (p : FileInfo → Except String ItemResult)
       (f1 f2 : FileInfo) (r2 : ItemResult),
        failsB (p f1) = true → p f2 = Except.ok r2 → r2.success = true →
        (check_and_process_new_problems stats now (Except.ok [f1, f2]) p).summary.processed = 1 ∧
        (check_and_process_new_problems stats now (Except.ok [f1, f2]) p).summary.errors = 1 ∧
        (check_and_process_new_problems stats now (Except.ok [f1, f2]) p).onErrorCount = 1 ∧
        (check_and_process_new_problems stats now (Except.ok [f1, f2]) p).onSolutionCompleteCount
          = 1) := by
  constructor
  · intro stats now p files
    cases files with
    | nil => rfl
    | cons f fs =>
        have := loop_results_length p (f :: fs) {}
        simpa [check_and_process_new_problems] using this
  · intro stats now p f1 f2 r2 h1 h2 h3
    cases hp : p f1 with
    | ok r1 =>
        have hr1 : r1.success = false := by
          rw [hp] at h1
          simpa [failsB] using h1
        refine ⟨?_, ?_, ?_, ?_⟩ <;>
          simp [check_and_process_new_problems, processLoopStep, hp, hr1, h2, h3]
    | error e =>
        refine ⟨?_, ?_, ?_, ?_⟩ <;>
          simp [check_and_process_new_problems, processLoopStep, hp, h2, h3]

/-- Per-item outcomes used by the two-item scenario witness: the bad file
fails at the safety-validation step, the good file passes everything. -/
def witnessProcess : FileInfo → Except String ItemResult := fun fi =>
  if fi.name = "bad.txt" then
    Except.ok (process_single_problem "bad.txt" true false "Unsafe file extension: .exe"
      true "" none { success := false } false false false)
  else
    Except.ok (process_single_problem "good.txt" true true "File is safe to process"
      true "Valid mathematical content" (some "x = 2") solvedOk true true true)

/-- Witness for C5 at the two-item scenario: one safety failure, one full
success. -/
theorem claim_c5_witness :
    (check_and_process_new_problems {} 0
        (Except.ok [⟨"bad.txt"⟩, ⟨"good.txt"⟩]) witnessProcess).summary.processed = 1 ∧
    (check_and_process_new_problems {} 0
        (Except.ok [⟨"bad.txt"⟩, ⟨"good.txt"⟩]) witnessProcess).summary.errors = 1 ∧
    (check_and_process_new_problems {} 0
        (Except.ok [⟨"bad.txt"⟩, ⟨"good.txt"⟩]) witnessProcess).onErrorCount = 1 ∧
    (check_and_process_new_problems {} 0
        (Except.ok [⟨"bad.txt"⟩, ⟨"good.txt"⟩]) witnessProcess).onSolutionCompleteCount = 1 :=
  claim_c5.2 {} 0 witnessProcess ⟨"bad.txt"⟩ ⟨"good.txt"⟩
    (process_single_problem "good.txt" true true "File is safe to process"
      true "Valid mathematical content" (some "x = 2") solvedOk true true true)
    (by decide) rfl (by decide)

/-- A failing item (failed result or raised exception) leaves the processed
count unchanged and adds one error in its loop iteration. -/
lemma processLoopStep_fail (p : FileInfo → Except String ItemResult)
    (acc : LoopAcc) (f : FileInfo) (h : failsB (p f) = true) :
    (processLoopStep p acc f).processed = acc.processed ∧
    (processLoopStep p acc f).errors = acc.errors + 1 := by
  cases hp : p f with
  | ok r =>
      have hr : r.success = false := by
        rw [hp] at h
        simpa [failsB] using h
      simp [processLoopStep, hp, hr]
  | error e => simp [processLoopStep, hp]

/-- The loop over files on which every item fails counts every file as an
error and none as processed. -/
lemma loop_all_fail (p : FileInfo → Except String ItemResult) :
    ∀ (files : List FileInfo) (acc : LoopAcc),
      (∀ f ∈ files, failsB (p f) = true) →
      (files.foldl (processLoopStep p) acc).processed = acc.processed ∧
      (files.foldl (processLoopStep p) acc).errors = acc.errors + files.length := by
  intro files
  induction files with
  | nil => intro acc _; simp
  | cons f fs ih =>
      intro acc h
      have hf : failsB (p f) = true := h f (List.mem_cons_self f fs)
      have hrest : ∀ g ∈ fs, failsB (p g) = true :=
        fun g hg => h g (List.mem_cons_of_mem f hg)
      obtain ⟨hs1, hs2⟩ := processLoopStep_fail p acc f hf
      obtain ⟨h1, h2⟩ := ih (processLoopStep p acc f) hrest
      rw [List.foldl_cons]
      refine ⟨h1.trans hs1, ?_⟩
      rw [h2, hs2]
      simp only [List.length_cons]
      omega

/-- C10: the run summary reports failure exactly when the discovery call
itself raises; whenever discovery succeeds the summary reports success, and
when additionally every discovered item fails, none is processed and the
error count equals the item count. -/
theorem claim_c10 (stats : Stats) (now : Nat)
    (p : FileInfo → Except String ItemResult) :
    (∀ e, (check_and_process_new_problems stats now (Except.error e) p).summary.success
        = false) ∧
    (∀ files, (check_and_process_new_problems stats now (Except.ok files) p).summary.success
        = true) ∧
    (∀ files, (∀ f ∈ files, failsB (p f) = true) →
      (check_and_process_new_problems stats now (Except.ok files) p).summary.processed = 0 ∧
      (check_and_process_new_problems stats now (Except.ok files) p).summary.errors
        = files.length) := by
  refine ⟨fun e => rfl, ?_, ?_⟩
  · intro files
    cases files with
    | nil => rfl
    | cons f fs => rfl
  · intro files h
    cases files with
    | nil => exact ⟨rfl, rfl⟩
    | cons f fs =>
        have := loop_all_fail p (f :: fs) {} h
        exact ⟨by simpa [check_and_process_new_problems] using this.1,
               by simpa [check_and_process_new_problems] using this.2⟩

/-- Per-item outcome in which processing always raises. -/
def alwaysRaises : FileInfo → Except String ItemResult :=
  fun _ => Except.error "network unreachable"

/-- Witness for C10: with one discovered item whose processing raises, the
summary still reports success with zero processed and one error. -/
theorem claim_c10_witness :
    (check_and_process_new_problems {} 0 (Except.ok [⟨"a.txt"⟩]) alwaysRaises).summary.processed
        = 0 ∧
    (check_and_process_new_problems {} 0 (Except.ok [⟨"a.txt"⟩]) alwaysRaises).summary.errors
        = 1 :=
  (claim_c10 {} 0 alwaysRaises).2.2 [⟨"a.txt"⟩] (by decide)

/-!
Run concurrency — models the interplay of the scheduled job and
`manual_trigger` (scheduler_service.py lines 80-112 and 342-352).  The
scheduled job is registered with a maximum of one concurrent instance and
with coalescing of missed runs (lines 92-99); that single-instance,
coalescing behaviour of the scheduling library is modelled from the spec,
since the library is not part of this repository.  `manual_trigger` (lines
342-352) calls `check_and_process_new_problems` directly, bypassing the
scheduler, with no run-in-progress check of any kind — which is what the
unguarded manual-start transition below embeds.
-/

/-- Concurrency-relevant state: whether an instance of the scheduled job is
executing, and how many manually triggered run bodies are executing. -/
structure SchedulerState where
  schedRunActive : Bool
  manualRunsActive : Nat
deriving DecidableEq, Repr

/-- Number of run bodies executing concurrently. -/
def activeRuns (s : SchedulerState) : Nat :=
  (if s.schedRunActive then 1 else 0) + s.manualRunsActive

/-- State before any run. -/
def initialState : SchedulerState := { schedRunActive := false, manualRunsActive := 0 }

/-- Transitions of the full system.  A scheduled tick starts a job instance
only when none is active, and is coalesced (dropped) otherwise; a manual
trigger starts a run body unconditionally. -/
inductive SchedulerStep : SchedulerState → SchedulerState → Prop where
  | schedTickStart (s : SchedulerState) (h : s.schedRunActive = false) :
      SchedulerStep s { s with schedRunActive := true }
  | schedTickCoalesced (s : SchedulerState) (h : s.schedRunActive = true) :
      SchedulerStep s s
  | schedRunFinish (s : SchedulerState) (h : s.schedRunActive = true) :
      SchedulerStep s { s with schedRunActive := false }
  | manualTriggerStart (s : SchedulerState) :
      SchedulerStep s { s with manualRunsActive := s.manualRunsActive + 1 }
  | manualRunFinish (s : SchedulerState) (n : Nat) (h : s.manualRunsActive = n + 1) :
      SchedulerStep s { s with manualRunsActive := n }

/-- Transitions with scheduled ticks only (no manual trigger). -/
inductive SchedTickStep : SchedulerState → SchedulerState → Prop where
  | tickStart (s : SchedulerState) (h : s.schedRunActive = false) :
      SchedTickStep s { s with schedRunActive := true }
  | tickCoalesced (s : SchedulerState) (h : s.schedRunActive = true) :
      SchedTickStep s s
  | runFinish (s : SchedulerState) (h : s.schedRunActive = true) :
      SchedTickStep s { s with schedRunActive := false }

/-- Counterexample to C4: from the initial state, a scheduled run starts and
then a manual trigger fires while it is still active; the resulting state is
reachable and has two run bodies executing concurrently, so invoking the
manual trigger during an active run does start a second concurrent run. -/
theorem claim_c4_counterexample :
    Relation.ReflTransGen SchedulerStep initialState
      { schedRunActive := true, manualRunsActive := 1 } ∧
    activeRuns { schedRunActive := true, manualRunsActive := 1 } = 2 := by
  constructor
  · exact Relation.ReflTransGen.tail
      (Relation.ReflTransGen.tail Relation.ReflTransGen.refl
        (SchedulerStep.schedTickStart initialState rfl))
      (SchedulerStep.manualTriggerStart
        { schedRunActive := true, manualRunsActive := 0 })
  · rfl

/-- C4 as amended: the at-most-one-active-run guarantee holds for the
scheduled job alone — under tick transitions only, every reachable state has
at most one run body executing, since ticks arriving during a run are
coalesced — but the manual trigger carries no such guard: fired in any state
with a run already active it yields a state with at least two concurrently
executing run bodies. -/
theorem claim_c4_amended :
    (∀ s : SchedulerState, Relation.ReflTransGen SchedTickStep initialState s →
      activeRuns s ≤ 1) ∧
    (∀ s : SchedulerState, 1 ≤ activeRuns s →
      2 ≤ activeRuns { s with manualRunsActive := s.manualRunsActive + 1 }) := by
  constructor
  · intro s h
    have key : s.manualRunsActive = 0 := by
      induction h with
      | refl => rfl
      | tail _ step ih =>
          cases step with
          | tickStart ht => exact ih
          | tickCoalesced ht => exact ih
          | runFinish ht => exact ih
    simp only [activeRuns, key]
    split_ifs <;> omega
  · intro s h
    simp only [activeRuns] at h ⊢
    split_ifs at h ⊢ <;> omega

/-- Witness for C4 as amended: the initial state satisfies the tick-only
invariant, and a manual trigger fired while a scheduled run is active yields
two concurrent run bodies. -/
theorem claim_c4_witness :
    activeRuns initialState ≤ 1 ∧
    2 ≤ activeRuns { schedRunActive := true, manualRunsActive := 1 } :=
  ⟨claim_c4_amended.1 initialState Relation.ReflTransGen.refl,
   claim_c4_amended.2 { schedRunActive := true, manualRunsActive := 0 } (by decide)⟩
